import Mathlib

/-!
Verification of the two typed-Python workshop modules `src/callable.py` and
`src/new_type.py`.

The repository's two files are short illustrative snippets whose content is a
pair of static-typing rules: structural (protocol-based) matching of callable
shapes, and nominal subtyping introduced by `NewType`.  The static checker
itself is an external collaborator of the repository, so its accept/reject
behaviour is modelled here from the specification's description of the two
rules; the function declarations, signatures and runtime bodies are embedded
directly from the source files.
-/

/-- The static types occurring in the two modules: `int`, `int | None`,
`list[int]`, `Iterable[int]`, `str`, `bool`, and the nominal subtype
`UserId` introduced in `src/new_type.py` line 6. -/
inductive Ty where
  | int
  | optInt
  | listInt
  | iterInt
  | str
  | bool
  | userId
deriving DecidableEq, Repr

/-- Modelled from the spec: the checker's assignability relation on the static
types above.  `UserId` is a nominal subtype of `int` ("a value of static type
`W` is assignable to a parameter of static type `B` or `W`; a value of static
type `B` is NOT assignable to a parameter of static type `W`"), `int` is
assignable to `int | None`, and `list[int]` to `Iterable[int]`; otherwise
assignability is type equality. -/
def assignable : Ty → Ty → Bool
  | .int, .optInt => true
  | .userId, .int => true
  | .userId, .optInt => true
  | .listInt, .iterInt => true
  | a, b => a == b

/-- The kinds of callable parameters that appear in `src/callable.py`:
variadic positional (`*values`) and named-only (`max_results`). -/
inductive ParamKind where
  | varPositional
  | namedOnly
deriving DecidableEq, Repr

/-- A callable parameter: its name, kind, declared type, and whether it has a
default value. -/
structure Param where
  name : String
  kind : ParamKind
  ty : Ty
  hasDefault : Bool
deriving DecidableEq, Repr

/-- A callable signature: parameter list and return type. -/
structure FnSig where
  params : List Param
  ret : Ty
deriving DecidableEq, Repr

/-- The `Aggregator` capability of `src/callable.py` lines 23-24:
`(*values: int, max_results: int | None = None) -> list[int]`. -/
def Aggregator : FnSig :=
  { params := [⟨"values", .varPositional, .int, false⟩,
               ⟨"max_results", .namedOnly, .optInt, true⟩],
    ret := .listInt }

/-- The signature of `good_cb` from `src/callable.py` lines 31-32:
`(*values: int, max_results: int | None = None) -> list[int]`. -/
def good_cb : FnSig :=
  { params := [⟨"values", .varPositional, .int, false⟩,
               ⟨"max_results", .namedOnly, .optInt, true⟩],
    ret := .listInt }

/-- The signature of `bad_cb` from `src/callable.py` lines 34-35:
`(*values: int, max_res: int | None) -> list[int]` (note the parameter name
`max_res` and the absence of a default). -/
def bad_cb : FnSig :=
  { params := [⟨"values", .varPositional, .int, false⟩,
               ⟨"max_res", .namedOnly, .optInt, false⟩],
    ret := .listInt }

/-- Modelled from the spec: one declared protocol parameter is matched by one
candidate parameter when the names agree exactly, the kinds agree exactly, the
declared type is assignable to the candidate's type (parameter types are
contravariant: "candidate parameter type must be the same or a supertype of
the declared type"), and the candidate keeps a default wherever the
declaration has one (so every call the capability allows stays valid). -/
def paramMatches (decl cand : Param) : Bool :=
  decl.name == cand.name
    && decl.kind == cand.kind
    && assignable decl.ty cand.ty
    && (!decl.hasDefault || cand.hasDefault)

/-- Modelled from the spec: the structural check that a candidate callable
satisfies a declared capability — the parameter lists have the same length and
match pointwise per `paramMatches`, and the candidate's return type is
assignable to the declared return type (covariant). -/
def satisfies (decl cand : FnSig) : Bool :=
  decl.params.length == cand.params.length
    && (List.zip decl.params cand.params).all (fun p => paramMatches p.1 p.2)
    && assignable cand.ret decl.ret

/-- The static check of a call `process_numbers(data, cb)` from
`src/callable.py` line 27: the first argument must be assignable to
`Iterable[int]` and the callback must satisfy the `Aggregator` capability. -/
def process_numbers_call_ok (dataTy : Ty) (cb : FnSig) : Bool :=
  assignable dataTy .iterInt && satisfies Aggregator cb

example : satisfies Aggregator good_cb = true := by decide
example : satisfies Aggregator bad_cb = false := by decide
example : process_numbers_call_ok .listInt good_cb = true := by decide
example : process_numbers_call_ok .listInt bad_cb = false := by decide

/-- Expressions of the fragment of `src/new_type.py` the checker looks at:
integer and string literals, the wrapping constructor `UserId(e)`, and binary
addition `a + b`. -/
inductive Expr where
  | intLit (n : Int)
  | strLit (s : String)
  | userIdOf (e : Expr)
  | add (a b : Expr)
deriving DecidableEq, Repr

/-- Modelled from the spec: the static type the checker infers for an
expression.  `UserId(e)` is "a checked constructor `W(value: B) -> W`": it
requires its argument to be assignable to `int` and has static type `UserId`.
For `a + b` the operator is not overridden by `UserId`, so the checker
resolves it "using `B`'s operator signature": both operand types must be
assignable to `int` and the result is statically `int`.  `none` is a static
diagnostic (the expression is ill-typed). -/
def staticTy : Expr → Option Ty
  | .intLit _ => some .int
  | .strLit _ => some .str
  | .userIdOf e =>
    match staticTy e with
    | some t => if assignable t .int then some .userId else none
    | none => none
  | .add a b =>
    match staticTy a, staticTy b with
    | some ta, some tb =>
      if assignable ta .int && assignable tb .int then some .int else none
    | _, _ => none

/-- Modelled from the spec: an expression is accepted where the static type
`expected` is required when its inferred type is assignable to `expected`. -/
def acceptsAt (expected : Ty) (e : Expr) : Bool :=
  match staticTy e with
  | some t => assignable t expected
  | none => false

/-- The declared parameter type of `get_user_name` from `src/new_type.py`
line 9: `user_id: UserId`. -/
def get_user_name_paramTy : Ty := .userId

/-- The static check of a call `get_user_name(arg)`: the argument must be
accepted at the parameter type `UserId`. -/
def get_user_name_call_ok (arg : Expr) : Bool :=
  acceptsAt get_user_name_paramTy arg

example : get_user_name_call_ok (.intLit 1) = false := by decide
example : get_user_name_call_ok (.userIdOf (.intLit 1)) = true := by decide
example : staticTy (.add (.userIdOf (.intLit 1)) (.userIdOf (.intLit 2)))
    = some .int := by decide

/-- Runtime values of the two modules. -/
inductive Val where
  | vInt (n : Int)
  | vStr (s : String)
  | vBool (b : Bool)
  | vListInt (xs : List Int)
  | vNone
deriving DecidableEq, Repr

/-- Runtime evaluation of expressions.  `UserId = NewType('UserId', int)`
(`src/new_type.py` line 6) makes `UserId(e)` the identity at runtime; `+` on
integers is integer addition; `none` is a runtime fault. -/
def evalE : Expr → Option Val
  | .intLit n => some (.vInt n)
  | .strLit s => some (.vStr s)
  | .userIdOf e => evalE e
  | .add a b =>
    match evalE a, evalE b with
    | some (.vInt x), some (.vInt y) => some (.vInt (x + y))
    | _, _ => none

/-- Runtime body of `get_user_name` from `src/new_type.py` lines 9-10: it
ignores its argument and returns the string `"John Doe"`. -/
def get_user_name_rt (_user_id : Val) : Option Val :=
  some (.vStr "John Doe")

/-- Runtime body of `good_cb` from `src/callable.py` lines 31-32: the body is
the bare ellipsis expression, so the call returns `None`. -/
def good_cb_rt (_values : List Int) (_max_results : Option Int) : Option Val :=
  some .vNone

/-- Runtime body of `bad_cb` from `src/callable.py` lines 34-35: the body is
the bare ellipsis expression, so the call returns `None`. -/
def bad_cb_rt (_values : List Int) (_max_res : Option Int) : Option Val :=
  some .vNone

/-- Runtime body of `process_numbers` from `src/callable.py` lines 27-28: the
body is the bare ellipsis expression (it never calls the aggregator), so the
call returns `None`. -/
def process_numbers_rt (_data : List Int)
    (_aggregator : List Int → Option Int → Option Val) : Option Val :=
  some .vNone

/-- Runtime body of `do_thing` from `src/callable.py` lines 7-8: the body is
the bare ellipsis expression, so the call returns `None`. -/
def do_thing_rt (_on_success : Int → Option Val) : Option Val :=
  some .vNone

/-- Runtime body of `_success` from `src/callable.py` lines 10-11: it returns
`True` for every argument. -/
def success_rt (_x : Int) : Option Val :=
  some (.vBool true)

/-- The top-level statements of `src/new_type.py`, one constructor per
statement, in source order. -/
inductive NTStmt where
  | importTyping
  | defineUserId
  | defGetUserName
  | assignUserId
  | printGood
  | printFlagged
  | assignX
  | revealX
deriving DecidableEq, Repr

/-- The module body of `src/new_type.py` in source order: the import (line 3),
the `NewType` definition (line 6), the function definition (lines 9-10), the
assignment `user_id = UserId(1)` (line 13), the two prints (lines 14-15), the
assignment `x = UserId(1) + UserId(2)` (line 17) and `reveal_type(x)`
(line 18). -/
def newTypeModule : List NTStmt :=
  [.importTyping, .defineUserId, .defGetUserName, .assignUserId,
   .printGood, .printFlagged, .assignX, .revealX]

/-- The interpreter state while running `src/new_type.py`: the two module
variables and the lines printed so far. -/
structure NTState where
  user_id_val : Option Val
  x_val : Option Val
  out : List String
deriving DecidableEq, Repr

/-- Rendering of a runtime value by `print`. -/
def showVal : Val → String
  | .vInt n => toString n
  | .vStr s => s
  | .vBool b => if b then "True" else "False"
  | .vListInt xs => toString xs
  | .vNone => "None"

/-- The initial state of the `src/new_type.py` module run. -/
def initNT : NTState := ⟨none, none, []⟩

/-- Execution of one top-level statement of `src/new_type.py`.  Imports and
definitions only bind names; `reveal_type` is a checker directive that is a
no-op for the module state at runtime; `none` is a runtime fault (for
instance an unbound name). -/
def execNTStmt (s : NTState) : NTStmt → Option NTState
  | .importTyping => some s
  | .defineUserId => some s
  | .defGetUserName => some s
  | .assignUserId =>
    (evalE (.userIdOf (.intLit 1))).map fun v => { s with user_id_val := some v }
  | .printGood =>
    match s.user_id_val with
    | some v => (get_user_name_rt v).map fun r => { s with out := s.out ++ [showVal r] }
    | none => none
  | .printFlagged =>
    (get_user_name_rt (.vInt 1)).map fun r => { s with out := s.out ++ [showVal r] }
  | .assignX =>
    (evalE (.add (.userIdOf (.intLit 1)) (.userIdOf (.intLit 2)))).map
      fun v => { s with x_val := some v }
  | .revealX =>
    match s.x_val with
    | some _ => some s
    | none => none

/-- Run a list of `src/new_type.py` statements from a state, returning the
list of statements actually executed and the final state (`none` when a
statement faulted; execution stops at the faulting statement). -/
def runNTStmts : NTState → List NTStmt → List NTStmt × Option NTState
  | s, [] => ([], some s)
  | s, st :: rest =>
    match execNTStmt s st with
    | none => ([st], none)
    | some s2 =>
      let r := runNTStmts s2 rest
      (st :: r.1, r.2)

/-- The complete run of `src/new_type.py`. -/
def runNewType : List NTStmt × Option NTState :=
  runNTStmts initNT newTypeModule

example : (runNewType.2).isSome = true := by decide
example : NTStmt.printFlagged ∈ runNewType.1 := by decide

/-- The top-level statements of `src/callable.py`, one constructor per
statement, in source order. -/
inductive CLStmt where
  | imports
  | defDoThing
  | defSuccess
  | callDoThing
  | defAggregator
  | defProcessNumbers
  | defGoodCb
  | defBadCb
  | callProcessGood
  | callProcessBad
deriving DecidableEq, Repr

/-- The module body of `src/callable.py` in source order: imports (lines 1-4),
the definitions of `do_thing` and `_success` (lines 7-11), the call
`do_thing(_success)` (line 13), the `Aggregator` protocol and the remaining
definitions (lines 23-35), and the two calls `process_numbers([], good_cb)`
(line 37) and `process_numbers([], bad_cb)` (line 38). -/
def callableModule : List CLStmt :=
  [.imports, .defDoThing, .defSuccess, .callDoThing, .defAggregator,
   .defProcessNumbers, .defGoodCb, .defBadCb, .callProcessGood, .callProcessBad]

/-- Execution of one top-level statement of `src/callable.py`: imports and
definitions bind names, and each call statement evaluates the corresponding
runtime body (`none` would be a runtime fault). -/
def execCLStmt : CLStmt → Option Unit
  | .callDoThing => (do_thing_rt success_rt).map fun _ => ()
  | .callProcessGood => (process_numbers_rt [] good_cb_rt).map fun _ => ()
  | .callProcessBad => (process_numbers_rt [] bad_cb_rt).map fun _ => ()
  | _ => some ()

/-- Run a list of `src/callable.py` statements, returning the statements
actually executed and whether the run completed without a fault. -/
def runCLStmts : List CLStmt → List CLStmt × Bool
  | [] => ([], true)
  | st :: rest =>
    match execCLStmt st with
    | none => ([st], false)
    | some _ =>
      let r := runCLStmts rest
      (st :: r.1, r.2)

/-- The complete run of `src/callable.py`. -/
def runCallable : List CLStmt × Bool :=
  runCLStmts callableModule

example : runCallable.2 = true := by decide
example : CLStmt.callProcessBad ∈ runCallable.1 := by decide

/-- A candidate signature with the right shape but a widened (supertype)
variadic parameter type `int | None` in place of `int`. -/
def wide_cb : FnSig :=
  { params := [⟨"values", .varPositional, .optInt, false⟩,
               ⟨"max_results", .namedOnly, .optInt, true⟩],
    ret := .listInt }

/-- C1: every candidate whose second (keyword) parameter has a name other
than `max_results` fails the `Aggregator` check, whatever its type and slot;
in particular `bad_cb` (keyword parameter `max_res`) is rejected, and the call
`process_numbers([], bad_cb)` is flagged. -/
theorem aggregator_rejects_renamed_keyword (cand : FnSig) (p q : Param)
    (hp : cand.params = [p, q]) (hq : q.name ≠ "max_results") :
    satisfies Aggregator cand = false
      ∧ satisfies Aggregator bad_cb = false
      ∧ process_numbers_call_ok .listInt bad_cb = false := by
  refine ⟨?_, by decide, by decide⟩
  have hbeq : ("max_results" == q.name) = false :=
    beq_eq_false_iff_ne.mpr (Ne.symm hq)
  simp [satisfies, Aggregator, hp, paramMatches, hbeq]

/-- Witness for C1 at the concrete candidate `bad_cb`. -/
theorem aggregator_rejects_renamed_keyword_witness :
    satisfies Aggregator bad_cb = false
      ∧ satisfies Aggregator bad_cb = false
      ∧ process_numbers_call_ok .listInt bad_cb = false :=
  aggregator_rejects_renamed_keyword bad_cb
    ⟨"values", .varPositional, .int, false⟩
    ⟨"max_res", .namedOnly, .optInt, false⟩ rfl (by decide)

/-- C2: `good_cb`, whose parameter names, kinds, types and default coincide
with the declared capability, is accepted, so `process_numbers([], good_cb)`
passes without diagnostic. -/
theorem good_cb_accepted :
    satisfies Aggregator good_cb = true
      ∧ process_numbers_call_ok .listInt good_cb = true := by decide

/-- C3 counterexample: `wide_cb` satisfies the `Aggregator` capability even
though its parameter types are not exactly those declared (its variadic
parameter is typed `int | None`, a supertype of `int`), so exact type matching
is not required. -/
theorem aggregator_exact_types_counterexample :
    satisfies Aggregator wide_cb = true
      ∧ wide_cb.params.map Param.ty ≠ Aggregator.params.map Param.ty := by
  decide

/-- C3 amended: a candidate satisfies the `Aggregator` capability only if its
parameter names and kinds match the declaration exactly, each declared
parameter type is assignable to the candidate's (the same or a supertype:
contravariant, not exact), the declared default is kept, and the candidate's
return type is assignable to the declared one. -/
theorem aggregator_satisfaction_requires_names_kinds (cand : FnSig)
    (h : satisfies Aggregator cand = true) :
    ∃ p q, cand.params = [p, q]
      ∧ p.name = "values" ∧ p.kind = .varPositional
      ∧ q.name = "max_results" ∧ q.kind = .namedOnly
      ∧ assignable .int p.ty = true
      ∧ assignable .optInt q.ty = true
      ∧ q.hasDefault = true
      ∧ assignable cand.ret .listInt = true := by
  unfold satisfies at h
  rw [Bool.and_eq_true, Bool.and_eq_true] at h
  obtain ⟨⟨hlen, hall⟩, hret⟩ := h
  have hlen2 : cand.params.length = 2 := by
    have hx := beq_iff_eq.mp hlen
    simpa [Aggregator] using hx.symm
  obtain ⟨p, q, hpq⟩ := List.length_eq_two.mp hlen2
  rw [hpq] at hall
  simp only [Aggregator, List.zip, List.zipWith, List.all_cons, List.all_nil,
    Bool.and_true, Bool.and_eq_true, paramMatches] at hall
  obtain ⟨⟨⟨⟨hn1, hk1⟩, ht1⟩, _⟩, ⟨⟨hn2, hk2⟩, ht2⟩, hd2⟩ := hall
  exact ⟨p, q, hpq, (beq_iff_eq.mp hn1).symm, (beq_iff_eq.mp hk1).symm,
    (beq_iff_eq.mp hn2).symm, (beq_iff_eq.mp hk2).symm, ht1, ht2,
    by simpa using hd2, by simpa [Aggregator] using hret⟩

/-- Witness for the amended C3 at the concrete candidate `good_cb`. -/
theorem aggregator_satisfaction_requires_names_kinds_witness :
    ∃ p q, good_cb.params = [p, q]
      ∧ p.name = "values" ∧ p.kind = .varPositional
      ∧ q.name = "max_results" ∧ q.kind = .namedOnly
      ∧ assignable .int p.ty = true
      ∧ assignable .optInt q.ty = true
      ∧ q.hasDefault = true
      ∧ assignable good_cb.ret .listInt = true :=
  aggregator_satisfaction_requires_names_kinds good_cb (by decide)

/-- C4: for any two expressions of static type `UserId`, their sum is
accepted and statically typed `int`, which is a different static type than
`UserId`. -/
theorem userId_add_widens_to_int (a b : Expr)
    (ha : staticTy a = some .userId) (hb : staticTy b = some .userId) :
    staticTy (.add a b) = some .int ∧ Ty.int ≠ Ty.userId := by
  refine ⟨?_, by decide⟩
  simp [staticTy, ha, hb, assignable]

/-- Witness for C4 at `UserId(1) + UserId(2)` from `src/new_type.py`
line 17. -/
theorem userId_add_widens_to_int_witness :
    staticTy (.add (.userIdOf (.intLit 1)) (.userIdOf (.intLit 2)))
        = some .int
      ∧ Ty.int ≠ Ty.userId :=
  userId_add_widens_to_int (.userIdOf (.intLit 1)) (.userIdOf (.intLit 2))
    (by decide) (by decide)

/-- C5: an expression of static type `int` is rejected as the argument of
`get_user_name`, while the wrapped expression `UserId(b)` is accepted. -/
theorem int_needs_wrapping_for_userId (b : Expr)
    (hb : staticTy b = some .int) :
    get_user_name_call_ok b = false
      ∧ get_user_name_call_ok (.userIdOf b) = true := by
  constructor
  · simp [get_user_name_call_ok, acceptsAt, get_user_name_paramTy, hb,
      assignable]
  · simp [get_user_name_call_ok, acceptsAt, get_user_name_paramTy, staticTy,
      hb, assignable]

/-- Witness for C5 at the literal `1` from `src/new_type.py` lines 13
and 15. -/
theorem int_needs_wrapping_for_userId_witness :
    get_user_name_call_ok (.intLit 1) = false
      ∧ get_user_name_call_ok (.userIdOf (.intLit 1)) = true :=
  int_needs_wrapping_for_userId (.intLit 1) (by decide)

/-- C6: every expression of static type `UserId` is accepted where `int` is
expected, and in particular is a valid operand of integer addition. -/
theorem userId_usable_as_int (w : Expr)
    (hw : staticTy w = some .userId) :
    acceptsAt .int w = true ∧ staticTy (.add w w) = some .int := by
  constructor
  · simp [acceptsAt, hw, assignable]
  · simp [staticTy, hw, assignable]

/-- Witness for C6 at `UserId(1)`. -/
theorem userId_usable_as_int_witness :
    acceptsAt .int (.userIdOf (.intLit 1)) = true
      ∧ staticTy (.add (.userIdOf (.intLit 1)) (.userIdOf (.intLit 1)))
          = some .int :=
  userId_usable_as_int (.userIdOf (.intLit 1)) (by decide)

/-- C7: the wrapping constructor `UserId(-)` is the identity at runtime: on
an integer literal it returns that integer unchanged, and on any expression
it evaluates exactly as the expression itself. -/
theorem userId_constructor_runtime_identity (b : Int) (e : Expr) :
    evalE (.userIdOf (.intLit b)) = some (.vInt b)
      ∧ evalE (.userIdOf e) = evalE e :=
  ⟨rfl, rfl⟩

/-- C8: the two statically flagged calls are rejected by the check, yet their
runtime evaluation completes without a fault: `get_user_name(1)` returns a
value and `process_numbers([], bad_cb)` returns a value. -/
theorem flagged_calls_run_without_fault :
    get_user_name_call_ok (.intLit 1) = false
      ∧ (∃ v, get_user_name_rt (.vInt 1) = some v)
      ∧ process_numbers_call_ok .listInt bad_cb = false
      ∧ (∃ v, process_numbers_rt [] bad_cb_rt = some v) :=
  ⟨by decide, ⟨.vStr "John Doe", rfl⟩, by decide, ⟨.vNone, rfl⟩⟩

/-- C9 counterexample: both flagged lines are unconditional top-level
statements and ARE executed in the illustrative flow: `print(get_user_name(1))`
occurs in the executed trace of `src/new_type.py` and
`process_numbers([], bad_cb)` in the executed trace of `src/callable.py`. -/
theorem flagged_lines_are_executed :
    NTStmt.printFlagged ∈ runNewType.1
      ∧ CLStmt.callProcessBad ∈ runCallable.1 := by decide

/-- C9 amended: the statically flagged lines are executed in the illustrative
flow of the two modules, but both module runs complete without any runtime
failure. -/
theorem flagged_lines_executed_but_harmless :
    NTStmt.printFlagged ∈ runNewType.1
      ∧ CLStmt.callProcessBad ∈ runCallable.1
      ∧ runNewType.2.isSome = true
      ∧ runCallable.2 = true := by decide

/-- C10: `get_user_name` returns the constant string `"John Doe"` for every
argument, so its result is independent of the argument. -/
theorem get_user_name_constant (a b : Val) :
    get_user_name_rt a = some (.vStr "John Doe")
      ∧ get_user_name_rt a = get_user_name_rt b :=
  ⟨rfl, rfl⟩
